import Mathlib

/-
Shallow embedding of src/payload_consumer/vabc_partition_writer.cc
(chromeos_update_engine::VABCPartitionWriter).

Modelling choices:
* The prefs store holds a single key (kPrefsUpdateStatePartitionNextOperation),
  so the store is one Int value in the state.  GetInt64/SetInt64 succeed or
  fail according to a deterministic environment oracle; a failed SetInt64
  leaves the stored value unchanged.
* Every external call (prefs get/set, cow-writer calls, source reads, the
  operation-converter invocation) appends an event to a chronological trace,
  whether or not the call succeeds, so ordering and frame properties are
  statements about the trace.
* The cow writer's per-call results come from a deterministic environment
  oracle as well.  The C++ code discards the results of AddLabel (both call
  sites) and of WriteAllCowOps (its single call site in Init); the embedding
  reproduces that faithfully.
* ConvertToCowOperations is an external pure function; its output is passed
  to `init` as the `converted` parameter and the call is recorded as an event.
* int64_t is modelled as Int (no claim involves 64-bit overflow), size_t
  block counts and block numbers as Nat, buffers as List Nat of bytes.
-/

set_option linter.unusedVariables false

namespace UpdateEngine

/-- Kind of a primitive block operation produced by the operation converter
(CowOperation::op in the C++ code). -/
inductive CowOpType where
  | CowCopy
  | CowReplace
  deriving DecidableEq

/-- A primitive block operation: one source block, one destination block. -/
structure CowOperation where
  op : CowOpType
  src_block : Nat
  dst_block : Nat
  deriving DecidableEq

/-- A contiguous run of destination blocks of an InstallOperation. -/
structure Extent where
  start_block : Nat
  num_blocks : Nat
  deriving DecidableEq

/-- The part of an InstallOperation the modelled code reads: its destination
extents. -/
structure InstallOperation where
  dst_extents : List Extent
  deriving DecidableEq

/-- The part of the InstallPlan the modelled code reads. -/
structure InstallPlan where
  is_resume : Bool
  deriving DecidableEq

/-- One observable external call made by the writer, recorded in program
order.  `setPref`/`getPref` are prefs SetInt64/GetInt64 on the single key
kPrefsUpdateStatePartitionNextOperation; `cowInit`, `cowInitAppend`,
`addCopy`, `addRawBlocks`, `addZeroBlocks`, `addLabel`, `cowFinalize` are the
cow-writer calls; `sourceRead` is utils::PReadAll on the source descriptor;
`convertOps` is the ConvertToCowOperations invocation. -/
inductive Event where
  | setPref (v : Int)
  | getPref
  | cowInit
  | cowInitAppend (label : Int)
  | addCopy (dst src : Nat)
  | addRawBlocks (dst : Nat) (data : List Nat) (len : Nat)
  | addZeroBlocks (start count : Nat)
  | addLabel (l : Int)
  | cowFinalize
  | sourceRead (off len : Nat)
  | convertOps
  deriving DecidableEq

/-- Writer-visible state: the value stored under the single prefs key, and
the chronological trace of external calls made so far. -/
structure St where
  checkpoint : Int
  trace : List Event
  deriving DecidableEq

/-- Environment oracle for the prefs store: whether GetInt64 succeeds, and
whether SetInt64 of a given value succeeds. -/
structure PrefsEnv where
  getOk : Bool
  setOk : Int → Bool

/-- Environment oracle for the cow writer: the result each call would
return.  The fields for AddLabel exist even though the C++ call sites discard
the result. -/
structure CowEnv where
  initOk : Bool
  initAppendOk : Int → Bool
  addCopyOk : Nat → Nat → Bool
  addRawOk : Nat → Bool
  addZeroOk : Nat → Nat → Bool
  addLabelOk : Int → Bool

/-- Environment oracle for the source partition: PReadAll at (byte offset,
byte count) either fails (`none`) or returns the bytes actually read
(possibly fewer than requested). -/
structure SourceEnv where
  pread : Nat → Nat → Option (List Nat)

/-- prefs_->SetInt64(kPrefsUpdateStatePartitionNextOperation, v): records the
call; on success the stored value becomes v, on failure it is unchanged. -/
def prefsSetInt64 (penv : PrefsEnv) (v : Int) (s : St) : Bool × St :=
  if penv.setOk v then
    (true, { checkpoint := v, trace := s.trace ++ [Event.setPref v] })
  else
    (false, { s with trace := s.trace ++ [Event.setPref v] })

/-- prefs_->GetInt64(kPrefsUpdateStatePartitionNextOperation, &v): records
the call; on success returns the stored value. -/
def prefsGetInt64 (penv : PrefsEnv) (s : St) : Option Int × St :=
  if penv.getOk then
    (some s.checkpoint, { s with trace := s.trace ++ [Event.getPref] })
  else
    (none, { s with trace := s.trace ++ [Event.getPref] })

/-- VABCPartitionWriter::WriteAllCowOps: the loop over converted primitive
ops.  CowCopy → AddCopy(dst, src); CowReplace → PReadAll one block at byte
offset src_block * block_size, fail unless exactly block_size (> 0) bytes
were read, then AddRawBlocks(dst, buffer, block_size).  Any failing step
returns false immediately. -/
def writeAllCowOps (cenv : CowEnv) (senv : SourceEnv) (block_size : Nat) :
    List CowOperation → St → Bool × St
  | [], s => (true, s)
  | cow_op :: rest, s =>
    match cow_op.op with
    | CowOpType.CowCopy =>
      let s1 : St :=
        { s with trace := s.trace ++ [Event.addCopy cow_op.dst_block cow_op.src_block] }
      if cenv.addCopyOk cow_op.dst_block cow_op.src_block then
        writeAllCowOps cenv senv block_size rest s1
      else
        (false, s1)
    | CowOpType.CowReplace =>
      let off := cow_op.src_block * block_size
      let s1 : St := { s with trace := s.trace ++ [Event.sourceRead off block_size] }
      match senv.pread off block_size with
      | none => (false, s1)
      | some data =>
        if data.length = 0 ∨ data.length ≠ block_size then
          (false, s1)
        else
          let s2 : St :=
            { s1 with trace := s1.trace ++ [Event.addRawBlocks cow_op.dst_block data block_size] }
          if cenv.addRawOk cow_op.dst_block then
            writeAllCowOps cenv senv block_size rest s2
          else
            (false, s2)

/-- The tail of VABCPartitionWriter::Init from the SetInt64(..., -1) call on
(the copy-phase bootstrap): persist -1, invoke the converter, stream the
converted ops (result discarded, as in the source), AddLabel(0) (result
discarded), persist 0. -/
def initBootstrap (penv : PrefsEnv) (cenv : CowEnv) (senv : SourceEnv)
    (block_size : Nat) (converted : List CowOperation) (s : St) : Bool × St :=
  let r1 := prefsSetInt64 penv (-1) s
  if r1.1 = false then
    (false, r1.2)
  else
    let s2 : St := { r1.2 with trace := r1.2.trace ++ [Event.convertOps] }
    let s3 : St := (writeAllCowOps cenv senv block_size converted s2).2
    let s4 : St := { s3 with trace := s3.trace ++ [Event.addLabel 0] }
    let r2 := prefsSetInt64 penv 0 s4
    if r2.1 = false then (false, r2.2) else (true, r2.2)

/-- VABCPartitionWriter::Init.  `baseInitOk` is the result of
PartitionWriter::Init (out of scope), `openCowOk` whether OpenCowWriter
returned a non-null writer; `converted` is the output of the external pure
function ConvertToCowOperations. -/
def init (plan : Option InstallPlan) (baseInitOk openCowOk : Bool)
    (penv : PrefsEnv) (cenv : CowEnv) (senv : SourceEnv)
    (block_size : Nat) (converted : List CowOperation) (s : St) : Bool × St :=
  match plan with
  | none => (false, s)
  | some p =>
    if baseInitOk = false then (false, s)
    else if openCowOk = false then (false, s)
    else if p.is_resume then
      let r := prefsGetInt64 penv s
      match r.1 with
      | none => (false, r.2)
      | some next_op =>
        if next_op < 0 then
          let s2 : St := { r.2 with trace := r.2.trace ++ [Event.cowInit] }
          if cenv.initOk then
            initBootstrap penv cenv senv block_size converted s2
          else (false, s2)
        else
          let s2 : St := { r.2 with trace := r.2.trace ++ [Event.cowInitAppend next_op] }
          if cenv.initAppendOk next_op then (true, s2) else (false, s2)
    else
      let s1 : St := { s with trace := s.trace ++ [Event.cowInit] }
      if cenv.initOk then
        initBootstrap penv cenv senv block_size converted s1
      else (false, s1)

/-- VABCPartitionWriter::Flush: GetInt64 the checkpoint (failure is fatal),
then AddLabel(next_op + 1) with the call's result discarded, and return
true. -/
def flush (penv : PrefsEnv) (cenv : CowEnv) (s : St) : Bool × St :=
  let r := prefsGetInt64 penv s
  match r.1 with
  | none => (false, r.2)
  | some next_op =>
    (true, { r.2 with trace := r.2.trace ++ [Event.addLabel (next_op + 1)] })

/-- VABCPartitionWriter::CheckpointUpdateProgress: SetInt64 of the next
operation index; the method returns void and the store result is
discarded. -/
def checkpointUpdateProgress (penv : PrefsEnv) (next_op_index : Nat) (s : St) : St :=
  (prefsSetInt64 penv (Int.ofNat next_op_index) s).2

/-- VABCPartitionWriter::~VABCPartitionWriter: SetInt64(..., -1) (result
discarded) then cow_writer_->Finalize(). -/
def vabcDestructor (penv : PrefsEnv) (s : St) : St :=
  let s1 := (prefsSetInt64 penv (-1) s).2
  { s1 with trace := s1.trace ++ [Event.cowFinalize] }

/-- The loop body of VABCPartitionWriter::PerformZeroOrDiscardOperation:
AddZeroBlocks per destination extent, first failure aborts. -/
def zeroLoop (cenv : CowEnv) : List Extent → St → Bool × St
  | [], s => (true, s)
  | e :: rest, s =>
    let s1 : St := { s with trace := s.trace ++ [Event.addZeroBlocks e.start_block e.num_blocks] }
    if cenv.addZeroOk e.start_block e.num_blocks then
      zeroLoop cenv rest s1
    else
      (false, s1)

/-- VABCPartitionWriter::PerformZeroOrDiscardOperation. -/
def performZeroOrDiscardOperation (cenv : CowEnv) (operation : InstallOperation)
    (s : St) : Bool × St :=
  zeroLoop cenv operation.dst_extents s

/-- VABCPartitionWriter::PerformSourceCopyOperation: returns true and does
nothing (SOURCE_COPY was handled during Init). -/
def performSourceCopyOperation (operation : InstallOperation) (s : St) : Bool × St :=
  (true, s)

/-- Specification-side recursion computing the Bool that writeAllCowOps
returns (derived from the same source loop, used to state trace lemmas). -/
def writeAllOk (cenv : CowEnv) (senv : SourceEnv) (block_size : Nat) :
    List CowOperation → Bool
  | [] => true
  | cow_op :: rest =>
    match cow_op.op with
    | CowOpType.CowCopy =>
      cenv.addCopyOk cow_op.dst_block cow_op.src_block
        && writeAllOk cenv senv block_size rest
    | CowOpType.CowReplace =>
      match senv.pread (cow_op.src_block * block_size) block_size with
      | none => false
      | some data =>
        if data.length = 0 ∨ data.length ≠ block_size then false
        else cenv.addRawOk cow_op.dst_block && writeAllOk cenv senv block_size rest

/-- Specification-side recursion computing the events writeAllCowOps appends
to the trace (the calls the loop makes, up to and including the first failing
one). -/
def cowOpsEvents (cenv : CowEnv) (senv : SourceEnv) (block_size : Nat) :
    List CowOperation → List Event
  | [] => []
  | cow_op :: rest =>
    match cow_op.op with
    | CowOpType.CowCopy =>
      Event.addCopy cow_op.dst_block cow_op.src_block ::
        (if cenv.addCopyOk cow_op.dst_block cow_op.src_block then
          cowOpsEvents cenv senv block_size rest
        else [])
    | CowOpType.CowReplace =>
      Event.sourceRead (cow_op.src_block * block_size) block_size ::
        (match senv.pread (cow_op.src_block * block_size) block_size with
        | none => []
        | some data =>
          if data.length = 0 ∨ data.length ≠ block_size then []
          else
            Event.addRawBlocks cow_op.dst_block data block_size ::
              (if cenv.addRawOk cow_op.dst_block then
                cowOpsEvents cenv senv block_size rest
              else []))

/-- Specification-side recursion computing the events the zero/discard loop
appends (one AddZeroBlocks per extent, truncated at the first failure). -/
def zeroEvents (cenv : CowEnv) : List Extent → List Event
  | [] => []
  | e :: rest =>
    Event.addZeroBlocks e.start_block e.num_blocks ::
      (if cenv.addZeroOk e.start_block e.num_blocks then zeroEvents cenv rest else [])

/-- Environment in which every collaborator call succeeds. -/
def penvAll : PrefsEnv := { getOk := true, setOk := fun _ => true }

/-- Prefs environment whose GetInt64 fails. -/
def penvNoGet : PrefsEnv := { getOk := false, setOk := fun _ => true }

/-- Prefs environment whose SetInt64 always fails. -/
def penvNoSet : PrefsEnv := { getOk := true, setOk := fun _ => false }

/-- Cow-writer environment in which every call succeeds. -/
def cenvAll : CowEnv :=
  { initOk := true, initAppendOk := fun _ => true, addCopyOk := fun _ _ => true,
    addRawOk := fun _ => true, addZeroOk := fun _ _ => true, addLabelOk := fun _ => true }

/-- Cow-writer environment in which AddLabel calls fail (everything else
succeeds). -/
def cenvLabelFail : CowEnv :=
  { initOk := true, initAppendOk := fun _ => true, addCopyOk := fun _ _ => true,
    addRawOk := fun _ => true, addZeroOk := fun _ _ => true, addLabelOk := fun _ => false }

/-- Source environment whose reads always return zero bytes. -/
def senvEmpty : SourceEnv := { pread := fun _ _ => some [] }

/-- Source environment whose reads fail outright. -/
def senvNone : SourceEnv := { pread := fun _ _ => none }

/-- Source environment whose reads return a full 4-byte block of 7s. -/
def senvData : SourceEnv := { pread := fun _ _ => some [7, 7, 7, 7] }

/-- A single CowReplace primitive op, source block 1, destination block 0. -/
def repOp : CowOperation :=
  { op := CowOpType.CowReplace, src_block := 1, dst_block := 0 }

/-- A CowReplace primitive op with the given source and destination block. -/
def replaceOp (src dst : Nat) : CowOperation :=
  { op := CowOpType.CowReplace, src_block := src, dst_block := dst }

/-- The spec's example primitive-op list: Copy(src=10, dst=0) then
Replace(src=20, dst=1). -/
def sampleOps : List CowOperation :=
  [{ op := CowOpType.CowCopy, src_block := 10, dst_block := 0 },
   { op := CowOpType.CowReplace, src_block := 20, dst_block := 1 }]

theorem writeAllCowOps_eq (cenv : CowEnv) (senv : SourceEnv) (block_size : Nat)
    (l : List CowOperation) :
    ∀ (c : Int) (t : List Event),
      writeAllCowOps cenv senv block_size l ⟨c, t⟩ =
        (writeAllOk cenv senv block_size l,
          ⟨c, t ++ cowOpsEvents cenv senv block_size l⟩) := by
  induction l with
  | nil => intro c t; simp [writeAllCowOps, writeAllOk, cowOpsEvents]
  | cons cow_op rest ih =>
    intro c t
    cases hop : cow_op.op with
    | CowCopy =>
      by_cases hc : cenv.addCopyOk cow_op.dst_block cow_op.src_block
      · simp [writeAllCowOps, writeAllOk, cowOpsEvents, hop, hc, ih]
      · simp [writeAllCowOps, writeAllOk, cowOpsEvents, hop, hc]
    | CowReplace =>
      cases hr : senv.pread (cow_op.src_block * block_size) block_size with
      | none =>
        simp [writeAllCowOps, writeAllOk, cowOpsEvents, hop, hr]
      | some data =>
        by_cases hnil : data = []
        · simp [writeAllCowOps, writeAllOk, cowOpsEvents, hop, hr, hnil]
        · by_cases hlen : data.length = block_size
          · have hbs : ¬block_size = 0 := by
              rw [← hlen]
              simpa [List.length_eq_zero] using hnil
            by_cases hw : cenv.addRawOk cow_op.dst_block
            · simp [writeAllCowOps, writeAllOk, cowOpsEvents, hop, hr, hnil, hlen, hbs, hw, ih]
            · simp [writeAllCowOps, writeAllOk, cowOpsEvents, hop, hr, hnil, hlen, hbs, hw]
          · simp [writeAllCowOps, writeAllOk, cowOpsEvents, hop, hr, hnil, hlen]

theorem initBootstrap_eq (penv : PrefsEnv) (cenv : CowEnv) (senv : SourceEnv)
    (block_size : Nat) (converted : List CowOperation) (c : Int) (t : List Event)
    (hm1 : penv.setOk (-1) = true) (h0 : penv.setOk 0 = true) :
    initBootstrap penv cenv senv block_size converted ⟨c, t⟩ =
      (true,
        ⟨0, t ++ Event.setPref (-1) :: Event.convertOps ::
            (cowOpsEvents cenv senv block_size converted
              ++ [Event.addLabel 0, Event.setPref 0])⟩) := by
  simp [initBootstrap, prefsSetInt64, hm1, h0, writeAllCowOps_eq]

/-- Claim C1, evaluated at the failing input: on a fresh start with block
size 4, a single CowReplace op whose source read returns zero bytes, and all
other collaborators succeeding, writeAllCowOps fails — yet Init still invokes
the converter, adds label 0, persists checkpoint 0 and returns true, because
the source discards the result of WriteAllCowOps.  The claim (Init returns
failure with the checkpoint left at -1) is violated by the code. -/
theorem init_copy_phase_write_failure_ignored :
    (writeAllCowOps cenvAll senvEmpty 4 [repOp] ⟨-1, []⟩).1 = false
    ∧ init (some ⟨false⟩) true true penvAll cenvAll senvEmpty 4 [repOp] ⟨-1, []⟩ =
        (true, ⟨0, [Event.cowInit, Event.setPref (-1), Event.convertOps,
          Event.sourceRead 4 4, Event.addLabel 0, Event.setPref 0]⟩) := by
  decide

/-- Claim C2: every Init execution that reaches the copy-phase bootstrap
(fresh start, or resume with a negative checkpoint, with Initialize and both
checkpoint writes accepted) produces exactly the trace in which the
checkpoint write of -1 comes before any copy-phase log write, followed by the
converter invocation, the streamed primitive-op calls, AddLabel(0) and the
checkpoint write of 0, in that order; the only events before the -1 write are
the checkpoint read and the log Initialize call. -/
theorem init_bootstrap_event_order (penv : PrefsEnv) (cenv : CowEnv)
    (senv : SourceEnv) (block_size : Nat) (converted : List CowOperation)
    (p : InstallPlan) (c : Int)
    (hres : p.is_resume = false ∨ (penv.getOk = true ∧ c < 0))
    (hm1 : penv.setOk (-1) = true) (h0 : penv.setOk 0 = true)
    (hinit : cenv.initOk = true) :
    ∃ pre : List Event,
      (init (some p) true true penv cenv senv block_size converted ⟨c, []⟩).2.trace =
        pre ++ Event.setPref (-1) :: Event.convertOps ::
          (cowOpsEvents cenv senv block_size converted
            ++ [Event.addLabel 0, Event.setPref 0])
      ∧ ∀ e ∈ pre, e = Event.getPref ∨ e = Event.cowInit := by
  by_cases hrm : p.is_resume
  · rcases hres with hfresh | ⟨hget, hc⟩
    · simp [hfresh] at hrm
    · refine ⟨[Event.getPref, Event.cowInit], ?_, by simp⟩
      simp [init, hrm, prefsGetInt64, hget, hc, hinit,
        initBootstrap_eq penv cenv senv block_size converted c
          [Event.getPref, Event.cowInit] hm1 h0]
  · refine ⟨[Event.cowInit], ?_, by simp⟩
    simp [init, hrm, hinit,
      initBootstrap_eq penv cenv senv block_size converted c [Event.cowInit] hm1 h0]

/-- Claim C2 witness: the spec's example scenario — fresh start, primitive
ops Copy(src=10, dst=0) then Replace(src=20, dst=1), all collaborators
succeeding. -/
theorem init_bootstrap_event_order_witness :
    ∃ pre : List Event,
      (init (some ⟨false⟩) true true penvAll cenvAll senvData 4 sampleOps ⟨-1, []⟩).2.trace =
        pre ++ Event.setPref (-1) :: Event.convertOps ::
          (cowOpsEvents cenvAll senvData 4 sampleOps
            ++ [Event.addLabel 0, Event.setPref 0])
      ∧ ∀ e ∈ pre, e = Event.getPref ∨ e = Event.cowInit :=
  init_bootstrap_event_order penvAll cenvAll senvData 4 sampleOps ⟨false⟩ (-1)
    (Or.inl rfl) rfl rfl rfl

/-- Claim C3: resume behavior of Init — a failed checkpoint read yields false
with no further calls; a negative checkpoint leads to Initialize() followed
by the copy-phase bootstrap; a non-negative checkpoint leads to
InitializeAppend(checkpoint) and, on its success, an immediate true whose
trace contains no converter call, no source read, no label add and no
checkpoint write. -/
theorem init_resume_cases (penv : PrefsEnv) (cenv : CowEnv) (senv : SourceEnv)
    (block_size : Nat) (converted : List CowOperation) (c : Int) :
    (penv.getOk = false →
      init (some ⟨true⟩) true true penv cenv senv block_size converted ⟨c, []⟩ =
        (false, ⟨c, [Event.getPref]⟩))
    ∧ (penv.getOk = true → c < 0 → cenv.initOk = true →
      init (some ⟨true⟩) true true penv cenv senv block_size converted ⟨c, []⟩ =
        initBootstrap penv cenv senv block_size converted
          ⟨c, [Event.getPref, Event.cowInit]⟩)
    ∧ (penv.getOk = true → 0 ≤ c → cenv.initAppendOk c = true →
      init (some ⟨true⟩) true true penv cenv senv block_size converted ⟨c, []⟩ =
        (true, ⟨c, [Event.getPref, Event.cowInitAppend c]⟩)) := by
  refine ⟨fun hget => ?_, fun hget hc hinit => ?_, fun hget hc happ => ?_⟩
  · simp [init, prefsGetInt64, hget]
  · simp [init, prefsGetInt64, hget, hc, hinit]
  · simp [init, prefsGetInt64, hget, happ, not_lt.mpr hc]

/-- Claim C3 witness: checkpoint read failure; checkpoint -2 delegating to
the bootstrap; the spec's example of checkpoint 3 → InitializeAppend(3) and
immediate success. -/
theorem init_resume_cases_witness :
    init (some ⟨true⟩) true true penvNoGet cenvAll senvEmpty 4 [] ⟨3, []⟩ =
      (false, ⟨3, [Event.getPref]⟩)
    ∧ init (some ⟨true⟩) true true penvAll cenvAll senvEmpty 4 [] ⟨-2, []⟩ =
      initBootstrap penvAll cenvAll senvEmpty 4 [] ⟨-2, [Event.getPref, Event.cowInit]⟩
    ∧ init (some ⟨true⟩) true true penvAll cenvAll senvEmpty 4 [] ⟨3, []⟩ =
      (true, ⟨3, [Event.getPref, Event.cowInitAppend 3]⟩) :=
  ⟨(init_resume_cases penvNoGet cenvAll senvEmpty 4 [] 3).1 rfl,
   (init_resume_cases penvAll cenvAll senvEmpty 4 [] (-2)).2.1 rfl (by decide) rfl,
   (init_resume_cases penvAll cenvAll senvEmpty 4 [] 3).2.2 rfl (by decide) rfl⟩

/-- Claim C4 counterexample: with checkpoint 5 stored, a cow writer whose
AddLabel calls fail, and a working prefs store, Flush still returns true —
refuting the claim that Flush returns failure when adding the label fails
(the source discards AddLabel's result). -/
theorem flush_succeeds_despite_label_failure :
    cenvLabelFail.addLabelOk 6 = false
    ∧ flush penvAll cenvLabelFail ⟨5, []⟩ =
        (true, ⟨5, [Event.getPref, Event.addLabel 6]⟩) := by
  decide

/-- Claim C4 as amended: Flush reads the current checkpoint value n; if the
read fails it returns failure without adding any label; if the read succeeds
it calls AddLabel(n+1) and returns success regardless of the label call's
result. -/
theorem flush_reads_then_labels (penv : PrefsEnv) (cenv : CowEnv) (c : Int) :
    (penv.getOk = false →
      flush penv cenv ⟨c, []⟩ = (false, ⟨c, [Event.getPref]⟩))
    ∧ (penv.getOk = true →
      flush penv cenv ⟨c, []⟩ = (true, ⟨c, [Event.getPref, Event.addLabel (c + 1)]⟩)) := by
  constructor <;> intro hget <;> simp [flush, prefsGetInt64, hget]

/-- Claim C4 witness: a failed checkpoint read aborts Flush with no label,
and the spec's example — checkpoint 5 → AddLabel(6). -/
theorem flush_reads_then_labels_witness :
    flush penvNoGet cenvAll ⟨5, []⟩ = (false, ⟨5, [Event.getPref]⟩)
    ∧ flush penvAll cenvAll ⟨5, []⟩ = (true, ⟨5, [Event.getPref, Event.addLabel 6]⟩) :=
  ⟨(flush_reads_then_labels penvNoGet cenvAll 5).1 rfl,
   (flush_reads_then_labels penvAll cenvAll 5).2 rfl⟩

/-- Claim C5 counterexample: when the store rejects the write,
CheckpointUpdateProgress leaves the checkpoint value unchanged and — being a
void method that discards SetInt64's result — surfaces no failure, refuting
the claim that the index is persisted and a write failure is surfaced to the
caller. -/
theorem checkpoint_update_progress_silent_failure :
    penvNoSet.setOk 5 = false
    ∧ (checkpointUpdateProgress penvNoSet 5 ⟨2, []⟩).checkpoint = 2 := by
  decide

/-- Claim C5 as amended: CheckpointUpdateProgress(n) issues exactly one
checkpoint-store write of n; when the store accepts it the stored value
becomes n, and when the store rejects it the stored value is unchanged, with
no failure surfaced (the method returns void). -/
theorem checkpoint_update_progress_persists_when_store_ok (penv : PrefsEnv)
    (n : Nat) (c : Int) :
    (checkpointUpdateProgress penv n ⟨c, []⟩).trace = [Event.setPref (n : Int)]
    ∧ (penv.setOk (n : Int) = true →
        (checkpointUpdateProgress penv n ⟨c, []⟩).checkpoint = (n : Int))
    ∧ (penv.setOk (n : Int) = false →
        (checkpointUpdateProgress penv n ⟨c, []⟩).checkpoint = c) := by
  by_cases h : penv.setOk (n : Int) <;>
    simp [checkpointUpdateProgress, prefsSetInt64, h]

/-- Claim C5 witness: with an accepting store the checkpoint becomes 5; with
a rejecting store it stays 2. -/
theorem checkpoint_update_progress_persists_when_store_ok_witness :
    (checkpointUpdateProgress penvAll 5 ⟨2, []⟩).checkpoint = 5
    ∧ (checkpointUpdateProgress penvNoSet 5 ⟨2, []⟩).checkpoint = 2 :=
  ⟨(checkpoint_update_progress_persists_when_store_ok penvAll 5 2).2.1 rfl,
   (checkpoint_update_progress_persists_when_store_ok penvNoSet 5 2).2.2 rfl⟩

/-- Claim C6: the destructor unconditionally issues exactly one checkpoint
write of -1 followed by exactly one Finalize, in that order, from any prior
state (so also after earlier failed steps); when the store accepts the write
the stored checkpoint is -1 afterwards. -/
theorem destructor_resets_then_finalizes (penv : PrefsEnv) (c : Int) :
    (vabcDestructor penv ⟨c, []⟩).trace = [Event.setPref (-1), Event.cowFinalize]
    ∧ (penv.setOk (-1) = true → (vabcDestructor penv ⟨c, []⟩).checkpoint = -1) := by
  by_cases h : penv.setOk (-1) <;> simp [vabcDestructor, prefsSetInt64, h]

/-- Claim C6 witness: teardown from stored checkpoint 7 with an accepting
store. -/
theorem destructor_resets_then_finalizes_witness :
    (vabcDestructor penvAll ⟨7, []⟩).trace = [Event.setPref (-1), Event.cowFinalize]
    ∧ (vabcDestructor penvAll ⟨7, []⟩).checkpoint = -1 :=
  ⟨(destructor_resets_then_finalizes penvAll 7).1,
   (destructor_resets_then_finalizes penvAll 7).2 rfl⟩

/-- Claim C7: a CowReplace op at the head of the loop issues exactly one
source read of block_size bytes at byte offset src * block_size; a failed
read, a zero-length read or a short read makes WriteAllCowOps return false
with no AddRawBlocks call for that op; a full read is followed by
AddRawBlocks(dst, data, block_size) and the loop continues (or aborts if that
call fails). -/
theorem replace_requires_full_block_read (cenv : CowEnv) (senv : SourceEnv)
    (block_size src dst : Nat) (rest : List CowOperation) (c : Int) (t : List Event) :
    (senv.pread (src * block_size) block_size = none →
      writeAllCowOps cenv senv block_size (replaceOp src dst :: rest) ⟨c, t⟩ =
        (false, ⟨c, t ++ [Event.sourceRead (src * block_size) block_size]⟩))
    ∧ (∀ data : List Nat, senv.pread (src * block_size) block_size = some data →
        data.length = 0 ∨ data.length ≠ block_size →
        writeAllCowOps cenv senv block_size (replaceOp src dst :: rest) ⟨c, t⟩ =
          (false, ⟨c, t ++ [Event.sourceRead (src * block_size) block_size]⟩))
    ∧ (∀ data : List Nat, senv.pread (src * block_size) block_size = some data →
        data.length = block_size → 0 < block_size →
        writeAllCowOps cenv senv block_size (replaceOp src dst :: rest) ⟨c, t⟩ =
          (if cenv.addRawOk dst then
            writeAllCowOps cenv senv block_size rest
              ⟨c, t ++ [Event.sourceRead (src * block_size) block_size,
                Event.addRawBlocks dst data block_size]⟩
          else
            (false, ⟨c, t ++ [Event.sourceRead (src * block_size) block_size,
              Event.addRawBlocks dst data block_size]⟩))) := by
  refine ⟨fun hr => ?_, fun data hr hlen => ?_, fun data hr hlen hbs => ?_⟩
  · simp [writeAllCowOps, replaceOp, hr]
  · rcases hlen with h0 | hne
    · simp [writeAllCowOps, replaceOp, hr, List.length_eq_zero.mp h0]
    · simp [writeAllCowOps, replaceOp, hr, hne]
  · have hnil : ¬data = [] := by
      intro h
      subst h
      simp at hlen
      omega
    by_cases hw : cenv.addRawOk dst <;>
      simp [writeAllCowOps, replaceOp, hr, hlen, hnil, hbs.ne', hw]

/-- Claim C7 witness: Replace(src=2, dst=1) with block size 4 — a failed
read, a zero-byte read, and a full 4-byte read. -/
theorem replace_requires_full_block_read_witness :
    writeAllCowOps cenvAll senvNone 4 [replaceOp 2 1] ⟨0, []⟩ =
      (false, ⟨0, [Event.sourceRead 8 4]⟩)
    ∧ writeAllCowOps cenvAll senvEmpty 4 [replaceOp 2 1] ⟨0, []⟩ =
      (false, ⟨0, [Event.sourceRead 8 4]⟩)
    ∧ writeAllCowOps cenvAll senvData 4 [replaceOp 2 1] ⟨0, []⟩ =
      (if cenvAll.addRawOk 1 then
        writeAllCowOps cenvAll senvData 4 []
          ⟨0, [Event.sourceRead 8 4, Event.addRawBlocks 1 [7, 7, 7, 7] 4]⟩
      else
        (false, ⟨0, [Event.sourceRead 8 4, Event.addRawBlocks 1 [7, 7, 7, 7] 4]⟩)) :=
  ⟨(replace_requires_full_block_read cenvAll senvNone 4 2 1 [] 0 []).1 rfl,
   (replace_requires_full_block_read cenvAll senvEmpty 4 2 1 [] 0 []).2.1 [] rfl (Or.inl rfl),
   (replace_requires_full_block_read cenvAll senvData 4 2 1 [] 0 []).2.2
     [7, 7, 7, 7] rfl rfl (by decide)⟩

/-- Claim C8: PerformZeroOrDiscardOperation issues one AddZeroBlocks call per
destination extent in the operation's order, stopping right after the first
failing call, and returns true exactly when every extent's call succeeded. -/
theorem zero_discard_extent_loop (cenv : CowEnv) (operation : InstallOperation)
    (c : Int) :
    performZeroOrDiscardOperation cenv operation ⟨c, []⟩ =
      (operation.dst_extents.all fun e => cenv.addZeroOk e.start_block e.num_blocks,
        ⟨c, zeroEvents cenv operation.dst_extents⟩) := by
  suffices h : ∀ (l : List Extent) (t : List Event),
      zeroLoop cenv l ⟨c, t⟩ =
        (l.all fun e => cenv.addZeroOk e.start_block e.num_blocks,
          ⟨c, t ++ zeroEvents cenv l⟩) by
    simpa [performZeroOrDiscardOperation] using h operation.dst_extents []
  intro l
  induction l with
  | nil => intro t; simp [zeroLoop, zeroEvents]
  | cons e rest ih =>
    intro t
    by_cases hz : cenv.addZeroOk e.start_block e.num_blocks
    · simp [zeroLoop, zeroEvents, hz, ih]
    · simp [zeroLoop, zeroEvents, hz]

/-- Claim C9: PerformSourceCopyOperation returns true for every operation and
every state, leaving the state — both checkpoint value and call trace —
untouched (no log writes, no checkpoint writes, no source reads). -/
theorem source_copy_replay_noop (operation : InstallOperation) (s : St) :
    performSourceCopyOperation operation s = (true, s) :=
  rfl

/-- Claim C10: whether it succeeds or fails, Flush leaves the stored
checkpoint value unchanged and issues no checkpoint-store write at all. -/
theorem flush_preserves_checkpoint (penv : PrefsEnv) (cenv : CowEnv) (c : Int) :
    ((flush penv cenv ⟨c, []⟩).2).checkpoint = c
    ∧ ∀ v : Int, Event.setPref v ∉ ((flush penv cenv ⟨c, []⟩).2).trace := by
  by_cases hget : penv.getOk <;> simp [flush, prefsGetInt64, hget]

end UpdateEngine
